import Mathlib

/-!
Shallow embedding of the identity/registry subsystem of the `sentinel-value`
library (file `sentinel_value/sentinel_value.py`).

Modelling choices:
* Python object identity is modelled by a natural-number id into a heap
  (`PyState.store`).  Class objects are likewise ids into a class heap
  (`PyState.classes`); index 0 is the `SentinelValue` base class itself.
* The global dict `sentinel_value_instances` is an association list with
  unique keys (insertion only happens on a key miss, mirroring the source).
* `SentinelValue.__new__` runs under `sentinel_create_lock`, so each call is
  one atomic step on the state; concurrency of two calls is therefore the two
  sequential interleavings of those atomic steps.
* `instance.__class__ = cls` (hot-reload rebinding) is an in-place update of
  the heap cell's `cls` field.
* Module globals (used by `_create_sentinel_value_subclass` via
  `getattr`/`setattr`) are modelled by `PyState.modattrs`, keyed by
  (module name, attribute name).
* The derived attribute `qualified_name` is not stored on instances: it is
  always `compose_qualified_name instance_name module_name` and no claim
  observes it independently.
-/

/-- One `SentinelValue` instance: its current class (mutable, for hot reload)
and the attributes set by `__init__`. -/
structure SentinelObj where
  cls : Nat
  instance_name : String
  module_name : String
deriving Repr, DecidableEq

/-- One class object: its `__name__`, its `__module__`, and the optional
`__repr__` override installed by `sentinel(..., repr=...)`. -/
structure ClsObj where
  cls_name : String
  cls_module : String
  repr_override : Option String
deriving Repr, DecidableEq

/-- The process-wide mutable state touched by the library. -/
structure PyState where
  /-- the global registry dict `sentinel_value_instances` -/
  sentinel_value_instances : List (String × Nat)
  /-- heap of instances; an instance id is an index into this list -/
  store : List SentinelObj
  /-- heap of class objects; a class id is an index into this list -/
  classes : List ClsObj
  /-- module attributes: (module name, attribute name, class id) -/
  modattrs : List (String × String × Nat)
deriving Repr, DecidableEq

/-- `SentinelValue._compose_qualified_name`: `module_name + "." + instance_name`. -/
def compose_qualified_name (instance_name module_name : String) : String :=
  module_name ++ "." ++ instance_name

/-- Dict lookup on the registry association list. -/
def alookup : List (String × Nat) → String → Option Nat
  | [], _ => none
  | (k, v) :: rest, key => if k = key then some v else alookup rest key

/-- `getattr(module, attr, missing)` on the modelled module globals. -/
def attr_lookup : List (String × String × Nat) → String → String → Option Nat
  | [], _, _ => none
  | (m, a, v) :: rest, mod, attr =>
      if m = mod ∧ a = attr then some v else attr_lookup rest mod attr

/-- `existing_instance.__class__ = cls` guarded by
`if existing_instance.__class__ is not cls` (source lines 110–111). -/
def rebind_class (id cls : Nat) (s : PyState) : PyState :=
  match s.store[id]? with
  | some inst =>
      if inst.cls ≠ cls then
        { s with store := s.store.set id ({ inst with cls := cls }) }
      else s
  | none => s

/-- `SentinelValue.__new__(cls, instance_name, module_name)` — the whole body
runs while holding `sentinel_create_lock`, hence is one atomic step.
Returns the id of the returned instance and the new state. -/
def SentinelValue_new (cls : Nat) (instance_name module_name : String)
    (s : PyState) : Nat × PyState :=
  match alookup s.sentinel_value_instances
      (compose_qualified_name instance_name module_name) with
  | some id => (id, rebind_class id cls s)
  | none =>
      (s.store.length,
       { s with
         sentinel_value_instances :=
           (compose_qualified_name instance_name module_name, s.store.length)
             :: s.sentinel_value_instances,
         store := s.store ++ [⟨cls, instance_name, module_name⟩] })

/-- `SentinelValue.__init__`: sets `instance_name`, `module_name`
(and the derived `qualified_name`) on the instance. -/
def SentinelValue_init (id : Nat) (instance_name module_name : String)
    (s : PyState) : PyState :=
  match s.store[id]? with
  | some inst =>
      let inst2 :=
        { inst with instance_name := instance_name, module_name := module_name }
      { s with store := s.store.set id inst2 }
  | none => s

/-- A full constructor call `cls(instance_name, module_name)`:
Python runs `__new__` and then `__init__` on the returned instance. -/
def SentinelValue_call (cls : Nat) (instance_name module_name : String)
    (s : PyState) : Nat × PyState :=
  let r := SentinelValue_new cls instance_name module_name s
  (r.1, SentinelValue_init r.1 instance_name module_name r.2)

/-- `SentinelValue.__getnewargs__`: `(self.instance_name, self.module_name)`. -/
def SentinelValue_getnewargs (inst : SentinelObj) : String × String :=
  (inst.instance_name, inst.module_name)

/-- `repr(instance)`: the subclass `__repr__` override if one was installed by
`sentinel(..., repr=...)`, else the inherited default `"<" + instance_name + ">"`. -/
def SentinelValue_repr (s : PyState) (id : Nat) : Option String :=
  match s.store[id]? with
  | none => none
  | some inst =>
      match s.classes[inst.cls]? with
      | some c =>
          match c.repr_override with
          | some r => some r
          | none => some ("<" ++ inst.instance_name ++ ">")
      | none => some ("<" ++ inst.instance_name ++ ">")

/-- `str(instance)`: no `__str__` is defined anywhere in the class hierarchy,
so Python falls back to `__repr__`. -/
def SentinelValue_str (s : PyState) (id : Nat) : Option String :=
  SentinelValue_repr s id

/-- `SentinelValue.__bool__` is a staticmethod ignoring the instance:
`return False`. -/
def SentinelValue_bool (_self : SentinelObj) : Bool :=
  false

/-- The `SentinelValue` base class object (class id 0). -/
def SentinelValue_base : ClsObj :=
  ⟨"SentinelValue", "sentinel_value.sentinel_value", none⟩

/-- State at interpreter start: empty registry, no instances, only the base
class, no sentinel attributes installed in any module. -/
def initState : PyState :=
  ⟨[], [], [SentinelValue_base], []⟩

/-- Unpickling a pickled sentinel: pickle records `__getnewargs__` plus the
instance's class, and unpickling calls `cls.__new__(cls, *newargs)`
(no `__init__`; the restored attribute state equals what is already there). -/
def pickle_roundtrip (s : PyState) (id : Nat) : Option (Nat × PyState) :=
  match s.store[id]? with
  | none => none
  | some inst =>
      some (SentinelValue_new inst.cls (SentinelValue_getnewargs inst).1
              (SentinelValue_getnewargs inst).2 s)

/-- `copy.copy` / `copy.deepcopy` use the same `__reduce_ex__` protocol, hence
the same `__getnewargs__`-feeding-`__new__` path as pickle. -/
def copy_of (s : PyState) (id : Nat) : Option (Nat × PyState) :=
  pickle_roundtrip s id

/-- Deep copy of a container of sentinels: each element is copied via the
reduce protocol; returns the list of ids of the copies. -/
def deepcopy_list (s : PyState) : List Nat → Option (List Nat)
  | [] => some []
  | id :: rest =>
      ((copy_of s id).map Prod.fst).bind fun i =>
        (deepcopy_list s rest).map fun l => i :: l

/-- `__name__` of the `sentinel_value.sentinel_value` module itself. -/
def sentinel_value_module_name : String :=
  "sentinel_value.sentinel_value"

/-- `_get_caller_module_name`: walk the call stack (modelled as the list of
`f_globals["__name__"]` values, innermost first) and return the first module
name that is not the library's own; `none` if the walk exhausts the stack. -/
def get_caller_module_name : List String → Option String
  | [] => none
  | name :: rest =>
      if name ≠ sentinel_value_module_name then some name
      else get_caller_module_name rest

/-- `_create_sentinel_value_subclass`: reuse the class already installed as a
module attribute, else create a fresh subclass and `setattr` it on the module. -/
def create_sentinel_value_subclass (instance_name module_name : String)
    (s : PyState) : Nat × PyState :=
  let class_name := "_sentinel_" ++ instance_name.replace "." "_"
  match attr_lookup s.modattrs module_name class_name with
  | some cid => (cid, s)
  | none =>
      let cid := s.classes.length
      (cid, { s with
              classes := s.classes ++ [⟨class_name, module_name, none⟩],
              modattrs := (module_name, class_name, cid) :: s.modattrs })

/-- `SentinelValueSubclass.__repr__ = lambda self: repr` — installs the
override on the class object in place. -/
def set_class_repr (cid : Nat) (r : String) (s : PyState) : PyState :=
  match s.classes[cid]? with
  | some c =>
      { s with classes := s.classes.set cid ({ c with repr_override := some r }) }
  | none => s

/-- The only failure in the creation path: `assert module_name` in `sentinel`. -/
inductive SentinelError where
  | assert_module_name
deriving Repr, DecidableEq

/-- The `sentinel(instance_name, repr=None)` factory.  `frames` is the call
stack seen by `_get_caller_module_name`.  The assert fires (before any state
mutation) when no caller module is found or its name is falsy. -/
def sentinel (instance_name : String) (repr : Option String)
    (frames : List String) (s : PyState) :
    Except SentinelError Nat × PyState :=
  match get_caller_module_name frames with
  | none => (.error .assert_module_name, s)
  | some module_name =>
      if module_name = "" then (.error .assert_module_name, s)
      else
        let r := create_sentinel_value_subclass instance_name module_name s
        let s2 := match repr with
          | some rep => if rep ≠ "" then set_class_repr r.1 rep r.2 else r.2
          | none => r.2
        let r2 := SentinelValue_call r.1 instance_name module_name s2
        (.ok r2.1, r2.2)

/-- Field/key coherence of one heap cell: a live instance's composed qualified
name is registered and maps back to that instance. -/
def coherent_at (s : PyState) (id : Nat) : Bool :=
  match s.store[id]? with
  | some inst =>
      alookup s.sentinel_value_instances
        (compose_qualified_name inst.instance_name inst.module_name) == some id
  | none => true

/-- Every registered instance id points into the instance heap. -/
def reg_bounded (s : PyState) : Prop :=
  ∀ p ∈ s.sentinel_value_instances, p.2 < s.store.length

instance (s : PyState) : Decidable (reg_bounded s) := by
  unfold reg_bounded; infer_instance

/-- Well-formedness of a state: registry keys are unique (it is a dict),
registered ids are distinct live instances, every live instance is registered
under its own composed name, and installed module attributes point at live
class objects.  Holds for `initState` and is preserved by the operations. -/
def WF (s : PyState) : Prop :=
  reg_bounded s ∧
  (s.sentinel_value_instances.map Prod.fst).Nodup ∧
  (s.sentinel_value_instances.map Prod.snd).Nodup ∧
  (∀ id ∈ List.range s.store.length, coherent_at s id = true) ∧
  (∀ p ∈ s.modattrs, p.2.2 < s.classes.length)

instance (s : PyState) : Decidable (WF s) := by
  unfold WF; infer_instance

/-! ### Basic lemmas about lookups -/

theorem alookup_mem {l : List (String × Nat)} {k : String} {v : Nat}
    (h : alookup l k = some v) : (k, v) ∈ l := by
  induction l with
  | nil => simp [alookup] at h
  | cons p rest ih =>
      obtain ⟨pk, pv⟩ := p
      simp only [alookup] at h
      by_cases hk : pk = k
      · subst hk
        rw [if_pos rfl] at h
        injection h with h
        subst h
        exact List.mem_cons_self _ _
      · rw [if_neg hk] at h
        exact List.mem_cons_of_mem _ (ih h)

theorem alookup_lt {s : PyState} (hb : reg_bounded s) {qn : String} {id : Nat}
    (h : alookup s.sentinel_value_instances qn = some id) :
    id < s.store.length :=
  hb _ (alookup_mem h)

/-- With distinct registered values, the registry is injective:
two keys mapping to the same instance id are the same key. -/
theorem alookup_inj {l : List (String × Nat)}
    (hnd : (l.map Prod.snd).Nodup) {k1 k2 : String} {v : Nat}
    (h1 : alookup l k1 = some v) (h2 : alookup l k2 = some v) : k1 = k2 := by
  have m1 := alookup_mem h1
  have m2 := alookup_mem h2
  have heq := List.inj_on_of_nodup_map hnd m1 m2 rfl
  exact congrArg Prod.fst heq

/-! ### Lemmas about `rebind_class` -/

theorem rebind_registry (id cls : Nat) (s : PyState) :
    (rebind_class id cls s).sentinel_value_instances =
      s.sentinel_value_instances := by
  unfold rebind_class
  split
  · split <;> rfl
  · rfl

theorem rebind_classes (id cls : Nat) (s : PyState) :
    (rebind_class id cls s).classes = s.classes := by
  unfold rebind_class
  split
  · split <;> rfl
  · rfl

theorem rebind_modattrs (id cls : Nat) (s : PyState) :
    (rebind_class id cls s).modattrs = s.modattrs := by
  unfold rebind_class
  split
  · split <;> rfl
  · rfl

theorem rebind_store_length (id cls : Nat) (s : PyState) :
    (rebind_class id cls s).store.length = s.store.length := by
  unfold rebind_class
  split
  · split
    · simp
    · rfl
  · rfl

theorem rebind_get {s : PyState} {id : Nat} {inst : SentinelObj} (cls : Nat)
    (h : s.store[id]? = some inst) :
    (rebind_class id cls s).store[id]? = some ({ inst with cls := cls }) := by
  have hlt : id < s.store.length := by
    rcases List.getElem?_eq_some_iff.mp h with ⟨hl, _⟩
    exact hl
  unfold rebind_class
  rw [h]
  dsimp only
  by_cases hc : inst.cls = cls
  · rw [if_neg (not_not_intro hc), h]
    cases inst
    simp_all
  · rw [if_pos hc]
    simp [List.getElem?_set_self hlt]

/-! ### Lemmas about `SentinelValue_init` -/

theorem init_registry (id : Nat) (n m : String) (s : PyState) :
    (SentinelValue_init id n m s).sentinel_value_instances =
      s.sentinel_value_instances := by
  unfold SentinelValue_init
  split <;> rfl

theorem init_classes (id : Nat) (n m : String) (s : PyState) :
    (SentinelValue_init id n m s).classes = s.classes := by
  unfold SentinelValue_init
  split <;> rfl

theorem init_modattrs (id : Nat) (n m : String) (s : PyState) :
    (SentinelValue_init id n m s).modattrs = s.modattrs := by
  unfold SentinelValue_init
  split <;> rfl

theorem init_store_length (id : Nat) (n m : String) (s : PyState) :
    (SentinelValue_init id n m s).store.length = s.store.length := by
  unfold SentinelValue_init
  split
  · simp
  · rfl

theorem init_get {s : PyState} {id : Nat} {inst : SentinelObj} (n m : String)
    (h : s.store[id]? = some inst) :
    (SentinelValue_init id n m s).store[id]? =
      some ({ inst with instance_name := n, module_name := m }) := by
  have hlt : id < s.store.length := by
    rcases List.getElem?_eq_some_iff.mp h with ⟨hl, _⟩
    exact hl
  unfold SentinelValue_init
  rw [h]
  simp [List.getElem?_set_self hlt]

/-! ### Characterization of `SentinelValue_new` / `SentinelValue_call` -/

theorem new_hit {s : PyState} {n m : String} {id : Nat} (cls : Nat)
    (h : alookup s.sentinel_value_instances (compose_qualified_name n m) =
      some id) :
    SentinelValue_new cls n m s = (id, rebind_class id cls s) := by
  unfold SentinelValue_new
  rw [h]

theorem new_miss {s : PyState} {n m : String} (cls : Nat)
    (h : alookup s.sentinel_value_instances (compose_qualified_name n m) =
      none) :
    SentinelValue_new cls n m s =
      (s.store.length,
       { s with
         sentinel_value_instances :=
           (compose_qualified_name n m, s.store.length)
             :: s.sentinel_value_instances,
         store := s.store ++ [⟨cls, n, m⟩] }) := by
  unfold SentinelValue_new
  rw [h]

theorem call_fst_hit {s : PyState} {n m : String} {id : Nat} (cls : Nat)
    (h : alookup s.sentinel_value_instances (compose_qualified_name n m) =
      some id) :
    (SentinelValue_call cls n m s).1 = id := by
  unfold SentinelValue_call
  rw [new_hit cls h]

theorem call_fst_miss {s : PyState} {n m : String} (cls : Nat)
    (h : alookup s.sentinel_value_instances (compose_qualified_name n m) =
      none) :
    (SentinelValue_call cls n m s).1 = s.store.length := by
  unfold SentinelValue_call
  rw [new_miss cls h]

theorem call_registry_hit {s : PyState} {n m : String} {id : Nat} (cls : Nat)
    (h : alookup s.sentinel_value_instances (compose_qualified_name n m) =
      some id) :
    (SentinelValue_call cls n m s).2.sentinel_value_instances =
      s.sentinel_value_instances := by
  unfold SentinelValue_call
  rw [new_hit cls h]
  dsimp only
  rw [init_registry, rebind_registry]

theorem call_registry_miss {s : PyState} {n m : String} (cls : Nat)
    (h : alookup s.sentinel_value_instances (compose_qualified_name n m) =
      none) :
    (SentinelValue_call cls n m s).2.sentinel_value_instances =
      (compose_qualified_name n m, s.store.length)
        :: s.sentinel_value_instances := by
  unfold SentinelValue_call
  rw [new_miss cls h]
  dsimp only
  rw [init_registry]

theorem call_store_length_hit {s : PyState} {n m : String} {id : Nat} (cls : Nat)
    (h : alookup s.sentinel_value_instances (compose_qualified_name n m) =
      some id) :
    (SentinelValue_call cls n m s).2.store.length = s.store.length := by
  unfold SentinelValue_call
  rw [new_hit cls h]
  dsimp only
  rw [init_store_length, rebind_store_length]

theorem call_store_length_miss {s : PyState} {n m : String} (cls : Nat)
    (h : alookup s.sentinel_value_instances (compose_qualified_name n m) =
      none) :
    (SentinelValue_call cls n m s).2.store.length = s.store.length + 1 := by
  unfold SentinelValue_call
  rw [new_miss cls h]
  dsimp only
  rw [init_store_length]
  simp

theorem call_classes (cls : Nat) (n m : String) (s : PyState) :
    (SentinelValue_call cls n m s).2.classes = s.classes := by
  unfold SentinelValue_call
  cases h : alookup s.sentinel_value_instances (compose_qualified_name n m) with
  | some id =>
      rw [new_hit cls h]
      dsimp only
      rw [init_classes, rebind_classes]
  | none =>
      rw [new_miss cls h]
      dsimp only
      rw [init_classes]

theorem call_modattrs (cls : Nat) (n m : String) (s : PyState) :
    (SentinelValue_call cls n m s).2.modattrs = s.modattrs := by
  unfold SentinelValue_call
  cases h : alookup s.sentinel_value_instances (compose_qualified_name n m) with
  | some id =>
      rw [new_hit cls h]
      dsimp only
      rw [init_modattrs, rebind_modattrs]
  | none =>
      rw [new_miss cls h]
      dsimp only
      rw [init_modattrs]

/-- After any constructor call, the registry maps the composed qualified name
to the id of the instance the call returned. -/
theorem call_registry_maps (cls : Nat) (n m : String) (s : PyState) :
    alookup (SentinelValue_call cls n m s).2.sentinel_value_instances
      (compose_qualified_name n m) = some (SentinelValue_call cls n m s).1 := by
  cases h : alookup s.sentinel_value_instances (compose_qualified_name n m) with
  | some id =>
      rw [call_registry_hit cls h, call_fst_hit cls h, h]
  | none =>
      rw [call_registry_miss cls h, call_fst_miss cls h]
      simp [alookup]

/-- A constructor call never replaces or removes an existing registry entry. -/
theorem call_registry_preserve {s : PyState} {qn : String} {id : Nat}
    (cls : Nat) (n m : String)
    (h : alookup s.sentinel_value_instances qn = some id) :
    alookup (SentinelValue_call cls n m s).2.sentinel_value_instances qn =
      some id := by
  cases hq : alookup s.sentinel_value_instances (compose_qualified_name n m) with
  | some id2 =>
      rw [call_registry_hit cls hq]
      exact h
  | none =>
      rw [call_registry_miss cls hq]
      simp only [alookup]
      have hne : compose_qualified_name n m ≠ qn := by
        intro he
        rw [he, h] at hq
        exact Option.noConfusion hq
      rw [if_neg hne]
      exact h

/-- The instance returned by a constructor call, read back from the heap:
its class is the requested class and its attributes are the ones `__init__`
just set. -/
theorem call_get {s : PyState} (cls : Nat) (n m : String)
    (hb : reg_bounded s) :
    (SentinelValue_call cls n m s).2.store[(SentinelValue_call cls n m s).1]? =
      some ⟨cls, n, m⟩ := by
  cases h : alookup s.sentinel_value_instances (compose_qualified_name n m) with
  | some id =>
      have hlt : id < s.store.length := alookup_lt hb h
      obtain ⟨inst, hinst⟩ : ∃ inst, s.store[id]? = some inst := by
        rcases List.getElem?_eq_some_iff.mpr ⟨hlt, rfl⟩ with h2
        exact ⟨_, h2⟩
      unfold SentinelValue_call
      rw [new_hit cls h]
      dsimp only
      rw [init_get n m (rebind_get cls hinst)]
  | none =>
      unfold SentinelValue_call
      rw [new_miss cls h]
      dsimp only
      have hconcat :
          (s.store ++ [(⟨cls, n, m⟩ : SentinelObj)])[s.store.length]? =
            some ⟨cls, n, m⟩ :=
        List.getElem?_concat_length _ _
      rw [init_get n m hconcat]

/-! ### Lemmas about the `sentinel` factory's auxiliary steps -/

theorem attr_lookup_mem {l : List (String × String × Nat)}
    {M a : String} {v : Nat} (h : attr_lookup l M a = some v) :
    (M, a, v) ∈ l := by
  induction l with
  | nil => simp [attr_lookup] at h
  | cons p rest ih =>
      obtain ⟨pm, pa, pv⟩ := p
      simp only [attr_lookup] at h
      by_cases hk : pm = M ∧ pa = a
      · obtain ⟨h1, h2⟩ := hk
        subst h1; subst h2
        rw [if_pos ⟨rfl, rfl⟩] at h
        injection h with h
        subst h
        exact List.mem_cons_self _ _
      · rw [if_neg hk] at h
        exact List.mem_cons_of_mem _ (ih h)

theorem subclass_registry (n M : String) (s : PyState) :
    (create_sentinel_value_subclass n M s).2.sentinel_value_instances =
      s.sentinel_value_instances := by
  unfold create_sentinel_value_subclass
  dsimp only
  split <;> rfl

theorem subclass_store (n M : String) (s : PyState) :
    (create_sentinel_value_subclass n M s).2.store = s.store := by
  unfold create_sentinel_value_subclass
  dsimp only
  split <;> rfl

theorem subclass_hit {s : PyState} {n M : String} {cid : Nat}
    (h : attr_lookup s.modattrs M ("_sentinel_" ++ n.replace "." "_") =
      some cid) :
    create_sentinel_value_subclass n M s = (cid, s) := by
  unfold create_sentinel_value_subclass
  dsimp only
  rw [h]

theorem subclass_miss {s : PyState} {n M : String}
    (h : attr_lookup s.modattrs M ("_sentinel_" ++ n.replace "." "_") = none) :
    create_sentinel_value_subclass n M s =
      (s.classes.length,
       { s with
         classes := s.classes ++ [⟨"_sentinel_" ++ n.replace "." "_", M, none⟩],
         modattrs := (M, "_sentinel_" ++ n.replace "." "_", s.classes.length)
           :: s.modattrs }) := by
  unfold create_sentinel_value_subclass
  dsimp only
  rw [h]

theorem setrepr_registry (cid : Nat) (r : String) (s : PyState) :
    (set_class_repr cid r s).sentinel_value_instances =
      s.sentinel_value_instances := by
  unfold set_class_repr
  split <;> rfl

theorem setrepr_store (cid : Nat) (r : String) (s : PyState) :
    (set_class_repr cid r s).store = s.store := by
  unfold set_class_repr
  split <;> rfl

theorem setrepr_modattrs (cid : Nat) (r : String) (s : PyState) :
    (set_class_repr cid r s).modattrs = s.modattrs := by
  unfold set_class_repr
  split <;> rfl

theorem setrepr_get {s : PyState} {cid : Nat} {c : ClsObj} (r : String)
    (h : s.classes[cid]? = some c) :
    (set_class_repr cid r s).classes[cid]? =
      some ({ c with repr_override := some r }) := by
  have hlt : cid < s.classes.length := by
    rcases List.getElem?_eq_some_iff.mp h with ⟨hl, _⟩
    exact hl
  unfold set_class_repr
  rw [h]
  simp [List.getElem?_set_self hlt]

/-- A constructor call keeps every registered id inside the heap. -/
theorem reg_bounded_call {s : PyState} (cls : Nat) (n m : String)
    (hb : reg_bounded s) : reg_bounded (SentinelValue_call cls n m s).2 := by
  cases h : alookup s.sentinel_value_instances (compose_qualified_name n m) with
  | some id =>
      intro p hp
      rw [call_registry_hit cls h] at hp
      rw [call_store_length_hit cls h]
      exact hb p hp
  | none =>
      intro p hp
      rw [call_registry_miss cls h] at hp
      rw [call_store_length_miss cls h]
      rcases List.mem_cons.mp hp with heq | hmem
      · subst heq
        exact Nat.lt_succ_self _
      · exact Nat.lt_succ_of_lt (hb p hmem)

theorem call_store_length_le (cls : Nat) (n m : String) (s : PyState) :
    (SentinelValue_call cls n m s).2.store.length ≤ s.store.length + 1 := by
  cases h : alookup s.sentinel_value_instances (compose_qualified_name n m) with
  | some id =>
      rw [call_store_length_hit cls h]
      exact Nat.le_succ _
  | none =>
      rw [call_store_length_miss cls h]

/-- Stack walks that never leave the library's own module find nothing. -/
theorem get_caller_none {frames : List String}
    (h : ∀ f ∈ frames, f = sentinel_value_module_name) :
    get_caller_module_name frames = none := by
  induction frames with
  | nil => rfl
  | cons f rest ih =>
      have hf : f = sentinel_value_module_name := h f (List.mem_cons_self _ _)
      simp only [get_caller_module_name]
      rw [if_neg (not_not_intro hf)]
      exact ih (fun g hg => h g (List.mem_cons_of_mem _ hg))

theorem sentinel_none_eq {frames : List String} {M : String}
    (hM : get_caller_module_name frames = some M) (hne : M ≠ "")
    (n : String) (s : PyState) :
    sentinel n none frames s =
      (.ok (SentinelValue_call (create_sentinel_value_subclass n M s).1 n M
              (create_sentinel_value_subclass n M s).2).1,
       (SentinelValue_call (create_sentinel_value_subclass n M s).1 n M
          (create_sentinel_value_subclass n M s).2).2) := by
  unfold sentinel
  rw [hM]
  dsimp only
  rw [if_neg hne]

theorem sentinel_some_eq {frames : List String} {M : String}
    (hM : get_caller_module_name frames = some M) (hne : M ≠ "")
    (n r : String) (hr : r ≠ "") (s : PyState) :
    sentinel n (some r) frames s =
      (.ok (SentinelValue_call (create_sentinel_value_subclass n M s).1 n M
              (set_class_repr (create_sentinel_value_subclass n M s).1 r
                (create_sentinel_value_subclass n M s).2)).1,
       (SentinelValue_call (create_sentinel_value_subclass n M s).1 n M
          (set_class_repr (create_sentinel_value_subclass n M s).1 r
            (create_sentinel_value_subclass n M s).2)).2) := by
  unfold sentinel
  rw [hM]
  dsimp only
  rw [if_neg hne]
  rw [if_pos hr]

/-- The display string of the instance a constructor call returns: the class's
override if any, else the bracketed short name. -/
theorem repr_after_call {s : PyState} (cls : Nat) (n m : String)
    (hb : reg_bounded s) {c : ClsObj} (hc : s.classes[cls]? = some c) :
    SentinelValue_repr (SentinelValue_call cls n m s).2
        (SentinelValue_call cls n m s).1 =
      some (match c.repr_override with
            | some r => r
            | none => "<" ++ n ++ ">") := by
  unfold SentinelValue_repr
  rw [call_get cls n m hb]
  dsimp only
  rw [call_classes, hc]
  rcases hro : c.repr_override with _ | r <;> simp [hro]

/-- Any successful `sentinel` call boils down to one constructor call made on
a state whose registry and instance heap equal the input state's. -/
theorem sentinel_ok_shape {frames : List String} {M : String}
    (hM : get_caller_module_name frames = some M) (hne : M ≠ "")
    (n : String) (r : Option String) (s : PyState) :
    ∃ cls s2,
      s2.sentinel_value_instances = s.sentinel_value_instances ∧
      s2.store = s.store ∧
      sentinel n r frames s =
        (.ok (SentinelValue_call cls n M s2).1,
         (SentinelValue_call cls n M s2).2) := by
  rcases r with _ | rep
  · exact ⟨_, _, subclass_registry n M s, subclass_store n M s,
      sentinel_none_eq hM hne n s⟩
  · by_cases hr : rep = ""
    · subst hr
      refine ⟨(create_sentinel_value_subclass n M s).1,
        (create_sentinel_value_subclass n M s).2,
        subclass_registry n M s, subclass_store n M s, ?_⟩
      unfold sentinel
      rw [hM]
      dsimp only
      rw [if_neg hne]
      rw [if_neg (not_not_intro rfl)]
    · refine ⟨(create_sentinel_value_subclass n M s).1, _, ?_, ?_,
        sentinel_some_eq hM hne n rep hr s⟩
      · rw [setrepr_registry, subclass_registry]
      · rw [setrepr_store, subclass_store]

/-- Unpickling a live instance of a well-formed state hits the registry and
returns the very same instance, leaving the state untouched. -/
theorem roundtrip_eq {s : PyState} {id : Nat} (hwf : WF s)
    (hid : id < s.store.length) : pickle_roundtrip s id = some (id, s) := by
  obtain ⟨hb, hk, hv, hcoh, hma⟩ := hwf
  obtain ⟨inst, hinst⟩ : ∃ inst, s.store[id]? = some inst :=
    ⟨s.store[id], List.getElem?_eq_some_iff.mpr ⟨hid, rfl⟩⟩
  have hco := hcoh id (List.mem_range.mpr hid)
  unfold coherent_at at hco
  rw [hinst] at hco
  dsimp only at hco
  have hreg : alookup s.sentinel_value_instances
      (compose_qualified_name inst.instance_name inst.module_name) =
        some id := by
    simpa using hco
  have hrb : rebind_class id inst.cls s = s := by
    unfold rebind_class
    rw [hinst]
    dsimp only
    rw [if_neg (not_not_intro rfl)]
  unfold pickle_roundtrip
  rw [hinst]
  dsimp only [SentinelValue_getnewargs]
  rw [new_hit inst.cls hreg, hrb]

/-! ### Claim theorems -/

/-- C1: for every (shortName, namespace) pair, repeated creation calls
(`SentinelValue(name, module)` or `sentinel(name)`) return the identical
instance; once the registry maps a qualified name to an instance, every later
creation call for that qualified name returns that same instance and never
replaces the registry entry. -/
theorem C1_registry_uniqueness :
    (∀ (s : PyState) (cls : Nat) (n m qn : String) (id : Nat),
      alookup s.sentinel_value_instances qn = some id →
        alookup (SentinelValue_call cls n m s).2.sentinel_value_instances qn
            = some id ∧
          (compose_qualified_name n m = qn →
            (SentinelValue_call cls n m s).1 = id)) ∧
    (∀ (s : PyState) (cls1 cls2 : Nat) (n m : String),
      (SentinelValue_call cls2 n m (SentinelValue_call cls1 n m s).2).1 =
        (SentinelValue_call cls1 n m s).1) ∧
    (∀ (s : PyState) (n : String) (r1 r2 : Option String)
        (frames : List String) (M : String),
      get_caller_module_name frames = some M → M ≠ "" →
        (sentinel n r2 frames (sentinel n r1 frames s).2).1 =
          (sentinel n r1 frames s).1) := by
  refine ⟨?_, ?_, ?_⟩
  · intro s cls n m qn id h
    refine ⟨call_registry_preserve cls n m h, ?_⟩
    intro hqn
    subst hqn
    exact call_fst_hit cls h
  · intro s cls1 cls2 n m
    exact call_fst_hit cls2 (call_registry_maps cls1 n m s)
  · intro s n r1 r2 frames M hM hne
    obtain ⟨clsA, sA, hregA, hstoreA, heqA⟩ := sentinel_ok_shape hM hne n r1 s
    obtain ⟨clsB, sB, hregB, hstoreB, heqB⟩ :=
      sentinel_ok_shape hM hne n r2 (sentinel n r1 frames s).2
    rw [heqB, heqA]
    dsimp only
    have hlook : alookup sB.sentinel_value_instances
        (compose_qualified_name n M) =
          some (SentinelValue_call clsA n M sA).1 := by
      rw [hregB, heqA]
      exact call_registry_maps clsA n M sA
    exact congrArg Except.ok (call_fst_hit clsB hlook)

theorem C1_registry_uniqueness_witness :
    alookup (SentinelValue_call 0 "X" "m"
        (SentinelValue_call 0 "X" "m" initState).2).2.sentinel_value_instances
      "m.X" = some 0 ∧
    (SentinelValue_call 0 "X" "m"
      (SentinelValue_call 0 "X" "m" initState).2).1 = 0 ∧
    (sentinel "N" none ["mod"] (sentinel "N" none ["mod"] initState).2).1 =
      (sentinel "N" none ["mod"] initState).1 := by
  refine ⟨?_, ?_, ?_⟩
  · exact (C1_registry_uniqueness.1 (SentinelValue_call 0 "X" "m" initState).2
      0 "X" "m" "m.X" 0 (by decide)).1
  · exact (C1_registry_uniqueness.1 (SentinelValue_call 0 "X" "m" initState).2
      0 "X" "m" "m.X" 0 (by decide)).2 (by decide)
  · exact C1_registry_uniqueness.2.2 initState "N" none none ["mod"] "mod"
      (by decide) (by decide)

/-- C2 counterexample: the two distinct (shortName, namespace) pairs
("b.C", "a") and ("C", "a.b") compose to the same qualified name "a.b.C",
so the two creation calls return the *same* instance, refuting the claimed
universal distinctness. -/
theorem C2_counterexample :
    (("b.C", "a") ≠ (("C" : String), ("a.b" : String))) ∧
    (SentinelValue_call 0 "C" "a.b"
        (SentinelValue_call 0 "b.C" "a" initState).2).1 =
      (SentinelValue_call 0 "b.C" "a" initState).1 := by
  exact ⟨by decide, by decide⟩

/-- C2 (amended): creation calls whose composed qualified names differ return
distinct instances; in particular, when neither argument contains the "."
delimiter, different (shortName, namespace) pairs yield distinct instances.
Pairs that collide on the composed key (such as ("b.C", "a") and
("C", "a.b")) yield the same instance. -/
theorem C2_distinct_qualified_names (s : PyState) (cls1 cls2 : Nat)
    (n1 m1 n2 m2 : String) (hwf : WF s)
    (hne : compose_qualified_name n1 m1 ≠ compose_qualified_name n2 m2) :
    (SentinelValue_call cls2 n2 m2 (SentinelValue_call cls1 n1 m1 s).2).1 ≠
      (SentinelValue_call cls1 n1 m1 s).1 := by
  obtain ⟨hb, hk, hv, hcoh, hma⟩ := hwf
  cases h1 : alookup s.sentinel_value_instances
      (compose_qualified_name n1 m1) with
  | some a =>
      have ha := call_fst_hit (s := s) cls1 h1
      have hreg := call_registry_hit (s := s) cls1 h1
      have hlen := call_store_length_hit (s := s) cls1 h1
      cases h2 : alookup
          (SentinelValue_call cls1 n1 m1 s).2.sentinel_value_instances
          (compose_qualified_name n2 m2) with
      | some b =>
          rw [call_fst_hit cls2 h2, ha]
          intro heq
          subst heq
          rw [hreg] at h2
          exact hne (alookup_inj hv h1 h2)
      | none =>
          rw [call_fst_miss cls2 h2, ha, hlen]
          have := alookup_lt hb h1
          omega
  | none =>
      have ha := call_fst_miss (s := s) cls1 h1
      have hreg := call_registry_miss (s := s) cls1 h1
      have hlen := call_store_length_miss (s := s) cls1 h1
      cases h2 : alookup
          (SentinelValue_call cls1 n1 m1 s).2.sentinel_value_instances
          (compose_qualified_name n2 m2) with
      | some b =>
          rw [call_fst_hit cls2 h2, ha]
          rw [hreg] at h2
          simp only [alookup] at h2
          rw [if_neg hne] at h2
          have := alookup_lt hb h2
          omega
      | none =>
          rw [call_fst_miss cls2 h2, ha, hlen]
          omega

theorem C2_distinct_qualified_names_witness :
    (SentinelValue_call 0 "Y" "m"
        (SentinelValue_call 0 "X" "m" initState).2).1 ≠
      (SentinelValue_call 0 "X" "m" initState).1 :=
  C2_distinct_qualified_names initState 0 0 "X" "m" "Y" "m"
    (by decide) (by decide)

/-- C3: serialization round-trip preserves identity — unpickling re-enters
creation via the original `(instance_name, module_name)` pair
(`__getnewargs__` feeding `__new__`), so the result is identity-equal to the
original while the qualified name is registered; shallow copy and deep copy
(also inside a container) return the same instance, not a duplicate. -/
theorem C3_serialization_copy_identity (s : PyState) (id : Nat) (hwf : WF s)
    (hid : id < s.store.length) :
    pickle_roundtrip s id = some (id, s) ∧
    copy_of s id = some (id, s) ∧
    (∀ ids : List Nat, (∀ i ∈ ids, i < s.store.length) →
      deepcopy_list s ids = some ids) := by
  refine ⟨roundtrip_eq hwf hid, roundtrip_eq hwf hid, ?_⟩
  intro ids hids
  induction ids with
  | nil => rfl
  | cons i rest ih =>
      have hi : i < s.store.length := hids i (List.mem_cons_self _ _)
      have hrest := ih (fun j hj => hids j (List.mem_cons_of_mem _ hj))
      have hcopy : copy_of s i = some (i, s) := roundtrip_eq hwf hi
      simp [deepcopy_list, hcopy, hrest]

theorem C3_serialization_copy_identity_witness :
    pickle_roundtrip (SentinelValue_call 0 "X" "m" initState).2 0 =
      some (0, (SentinelValue_call 0 "X" "m" initState).2) ∧
    deepcopy_list (SentinelValue_call 0 "X" "m" initState).2 [0, 0] =
      some [0, 0] := by
  refine ⟨?_, ?_⟩
  · exact (C3_serialization_copy_identity
      (SentinelValue_call 0 "X" "m" initState).2 0 (by decide) (by decide)).1
  · exact (C3_serialization_copy_identity
      (SentinelValue_call 0 "X" "m" initState).2 0 (by decide) (by decide)).2.2
      [0, 0] (by decide)

/-- C4: when a creation call supplies, for an already-registered qualified
name, a class different from the existing instance's current class, it
returns the existing instance itself (same id) with its class rebound in
place to the supplied class, so later type introspection reports the new
class. -/
theorem C4_hot_reload_rebind (s : PyState) (cls : Nat) (n m : String)
    (id : Nat) (inst : SentinelObj)
    (hreg : alookup s.sentinel_value_instances (compose_qualified_name n m) =
      some id)
    (hinst : s.store[id]? = some inst)
    (hcls : inst.cls ≠ cls) :
    (SentinelValue_call cls n m s).1 = id ∧
    (SentinelValue_call cls n m s).2.store[id]? = some ⟨cls, n, m⟩ := by
  refine ⟨call_fst_hit cls hreg, ?_⟩
  unfold SentinelValue_call
  rw [new_hit cls hreg]
  dsimp only
  rw [init_get n m (rebind_get cls hinst)]

theorem C4_hot_reload_rebind_witness :
    (SentinelValue_call 0 "X" "m" (sentinel "X" none ["m"] initState).2).1 = 0 ∧
    (SentinelValue_call 0 "X" "m"
      (sentinel "X" none ["m"] initState).2).2.store[0]? =
        some ⟨0, "X", "m"⟩ :=
  C4_hot_reload_rebind (sentinel "X" none ["m"] initState).2 0 "X" "m" 0
    ⟨1, "X", "m"⟩ (by decide) (by decide) (by decide)

/-- C5: when no enclosing namespace can be inferred (the stack walk never
leaves the library's own module), `sentinel` fails with the
`assert module_name` error; the failure happens before any mutation, so no
registry entry is created. -/
theorem C5_assert_module_name (n : String) (r : Option String)
    (frames : List String) (s : PyState)
    (hframes : ∀ f ∈ frames, f = sentinel_value_module_name) :
    get_caller_module_name frames = none ∧
    sentinel n r frames s = (.error .assert_module_name, s) := by
  have hnone := get_caller_none hframes
  refine ⟨hnone, ?_⟩
  unfold sentinel
  rw [hnone]

theorem C5_assert_module_name_witness :
    get_caller_module_name [sentinel_value_module_name] = none ∧
    sentinel "X" none [sentinel_value_module_name] initState =
      (.error .assert_module_name, initState) :=
  C5_assert_module_name "X" none [sentinel_value_module_name] initState
    (by decide)

/-- C6 counterexample: creating a sentinel with empty short name and empty
namespace is not rejected — the call completes normally and adds a registry
entry under the composed key ".", refuting "the call raises and the registry
is left unchanged". -/
theorem C6_counterexample :
    (SentinelValue_call 0 "" "" initState).2.sentinel_value_instances ≠
      initState.sentinel_value_instances ∧
    alookup (SentinelValue_call 0 "" "" initState).2.sentinel_value_instances
      (compose_qualified_name "" "") =
      some (SentinelValue_call 0 "" "" initState).1 :=
  ⟨by decide, by decide⟩

/-- C6 (amended): the code performs no input validation — creation with an
empty short name or an empty namespace succeeds like any other call and
registers the instance under the composed qualified name. -/
theorem C6_no_validation (s : PyState) (cls : Nat) (n m : String)
    (hempty : n = "" ∨ m = "") :
    alookup (SentinelValue_call cls n m s).2.sentinel_value_instances
      (compose_qualified_name n m) = some (SentinelValue_call cls n m s).1 :=
  call_registry_maps cls n m s

theorem C6_no_validation_witness :
    alookup (SentinelValue_call 0 "" "" initState).2.sentinel_value_instances
      (compose_qualified_name "" "") =
      some (SentinelValue_call 0 "" "" initState).1 :=
  C6_no_validation initState 0 "" "" (Or.inl rfl)

/-- C7: every sentinel instance is falsy — `__bool__` is a staticmethod that
ignores the instance and returns False, regardless of the name. -/
theorem C7_always_falsy (inst : SentinelObj) :
    SentinelValue_bool inst = false :=
  rfl

/-- C9: the whole check-and-insert sequence in `__new__` runs while holding
`sentinel_create_lock`, so two concurrent creation calls execute as the two
sequential interleavings of atomic steps.  In either order (the statement is
symmetric in the two calls), both callers for the same qualified name obtain
the same winning instance, and at most one instance is allocated in total —
no partially constructed duplicate is ever stored or observable. -/
theorem C9_concurrent_single_winner (s : PyState) (cls1 cls2 : Nat)
    (n1 m1 n2 m2 : String)
    (hqn : compose_qualified_name n1 m1 = compose_qualified_name n2 m2) :
    (SentinelValue_call cls2 n2 m2 (SentinelValue_call cls1 n1 m1 s).2).1 =
      (SentinelValue_call cls1 n1 m1 s).1 ∧
    (SentinelValue_call cls2 n2 m2
      (SentinelValue_call cls1 n1 m1 s).2).2.store.length ≤
        s.store.length + 1 := by
  have h := call_registry_maps cls1 n1 m1 s
  rw [hqn] at h
  refine ⟨call_fst_hit cls2 h, ?_⟩
  calc (SentinelValue_call cls2 n2 m2
      (SentinelValue_call cls1 n1 m1 s).2).2.store.length
      = (SentinelValue_call cls1 n1 m1 s).2.store.length :=
        call_store_length_hit cls2 h
    _ ≤ s.store.length + 1 := call_store_length_le cls1 n1 m1 s

theorem C9_concurrent_single_winner_witness :
    (SentinelValue_call 0 "A" "mm"
        (SentinelValue_call 0 "A" "mm" initState).2).1 =
      (SentinelValue_call 0 "A" "mm" initState).1 ∧
    (SentinelValue_call 0 "A" "mm"
      (SentinelValue_call 0 "A" "mm" initState).2).2.store.length ≤
        initState.store.length + 1 :=
  C9_concurrent_single_winner initState 0 0 "A" "mm" "A" "mm" rfl

/-- `_create_sentinel_value_subclass` touches only classes and module
attributes, so registered ids stay inside the heap. -/
theorem reg_bounded_subclass (n M : String) {s : PyState}
    (hb : reg_bounded s) :
    reg_bounded (create_sentinel_value_subclass n M s).2 := by
  intro p hp
  rw [subclass_registry] at hp
  rw [subclass_store]
  exact hb p hp

/-- When the module does not yet carry the subclass attribute, the class the
factory returns is freshly appended: named after the variable, bound to the
module, with no repr override. -/
theorem subclass_fresh_get {s : PyState} {n M : String}
    (hfresh : attr_lookup s.modattrs M ("_sentinel_" ++ n.replace "." "_") =
      none) :
    (create_sentinel_value_subclass n M
        s).2.classes[(create_sentinel_value_subclass n M s).1]? =
      some ⟨"_sentinel_" ++ n.replace "." "_", M, none⟩ := by
  rw [subclass_miss hfresh]
  dsimp only
  exact List.getElem?_concat_length _ _

/-- C8 counterexample: `sentinel(name, repr="")` is called with a custom
display string (the empty string), but `if repr:` treats it as absent, so
`repr()` of the returned instance is the default bracketed form "<NAME>",
not the supplied custom string "". -/
theorem C8_counterexample :
    (sentinel "NAME" (some "") ["mod"] initState).1 = .ok 0 ∧
    SentinelValue_repr (sentinel "NAME" (some "") ["mod"] initState).2 0 =
      some "<NAME>" ∧
    ("<NAME>" : String) ≠ "" :=
  ⟨rfl, rfl, by decide⟩

/-- C8 (amended): for a sentinel created by `sentinel(name)` whose per-module
subclass is freshly created (hence carries no display override), `str` and
`repr` both equal `"<" + name + ">"`; when a *non-empty* custom display
string is supplied, `repr` of the returned instance equals exactly that
string.  (An empty custom string is ignored by `if repr:`, whence the
counterexample and the non-emptiness condition.) -/
theorem C8_repr_default_and_custom :
    (∀ (s : PyState) (n M : String) (frames : List String) (id : Nat),
      WF s → get_caller_module_name frames = some M → M ≠ "" →
      attr_lookup s.modattrs M ("_sentinel_" ++ n.replace "." "_") = none →
      (sentinel n none frames s).1 = .ok id →
        SentinelValue_repr (sentinel n none frames s).2 id =
            some ("<" ++ n ++ ">") ∧
          SentinelValue_str (sentinel n none frames s).2 id =
            some ("<" ++ n ++ ">")) ∧
    (∀ (s : PyState) (n M r : String) (frames : List String) (id : Nat),
      WF s → get_caller_module_name frames = some M → M ≠ "" → r ≠ "" →
      (sentinel n (some r) frames s).1 = .ok id →
        SentinelValue_repr (sentinel n (some r) frames s).2 id = some r) := by
  constructor
  · intro s n M frames id hwf hM hne hfresh hok
    have hb2 : reg_bounded (create_sentinel_value_subclass n M s).2 :=
      reg_bounded_subclass n M hwf.1
    have hcS := subclass_fresh_get hfresh
    have hrepr := repr_after_call (create_sentinel_value_subclass n M s).1
      n M hb2 hcS
    rw [sentinel_none_eq hM hne n s] at hok ⊢
    dsimp only at hok ⊢
    have hid : (SentinelValue_call (create_sentinel_value_subclass n M s).1
        n M (create_sentinel_value_subclass n M s).2).1 = id := by
      injection hok
    rw [← hid]
    exact ⟨hrepr, hrepr⟩
  · intro s n M r frames id hwf hM hne hr hok
    have hb2 : reg_bounded
        (set_class_repr (create_sentinel_value_subclass n M s).1 r
          (create_sentinel_value_subclass n M s).2) := by
      intro p hp
      rw [setrepr_registry, subclass_registry] at hp
      rw [setrepr_store, subclass_store]
      exact hwf.1 p hp
    obtain ⟨c0, hc0⟩ : ∃ c0 : ClsObj,
        (create_sentinel_value_subclass n M
            s).2.classes[(create_sentinel_value_subclass n M s).1]? =
          some c0 := by
      cases hattr : attr_lookup s.modattrs M
          ("_sentinel_" ++ n.replace "." "_") with
      | some cid =>
          rw [subclass_hit hattr]
          dsimp only
          have hlt : cid < s.classes.length :=
            hwf.2.2.2.2 _ (attr_lookup_mem hattr)
          exact ⟨s.classes[cid], List.getElem?_eq_some_iff.mpr ⟨hlt, rfl⟩⟩
      | none =>
          exact ⟨_, subclass_fresh_get hattr⟩
    have hcS := setrepr_get r hc0
    have hrepr := repr_after_call (create_sentinel_value_subclass n M s).1
      n M hb2 hcS
    rw [sentinel_some_eq hM hne n r hr s] at hok ⊢
    dsimp only at hok ⊢
    have hid : (SentinelValue_call (create_sentinel_value_subclass n M s).1
        n M (set_class_repr (create_sentinel_value_subclass n M s).1 r
          (create_sentinel_value_subclass n M s).2)).1 = id := by
      injection hok
    rw [← hid]
    exact hrepr

theorem C8_repr_default_and_custom_witness :
    SentinelValue_repr (sentinel "N" none ["m"] initState).2 0 =
      some ("<" ++ "N" ++ ">") ∧
    SentinelValue_repr (sentinel "N" (some "custom") ["m"] initState).2 0 =
      some "custom" := by
  constructor
  · exact (C8_repr_default_and_custom.1 initState "N" "m" ["m"] 0
      (by decide) (by decide) (by decide) (by decide) rfl).1
  · exact C8_repr_default_and_custom.2 initState "N" "m" "custom" ["m"] 0
      (by decide) (by decide) (by decide) (by decide) rfl

/-- C10: every `sentinel(name)` call mutates the caller's module globals —
it installs a subclass named `"_sentinel_" + name` (dots replaced by
underscores) as a module attribute; a later `sentinel(name)` call from the
same module finds and reuses that exact class object instead of creating a
new one, so both resulting creations yield instances whose effective class
is that one subclass. -/
theorem C10_sentinel_subclass_side_effect (s : PyState) (n M : String)
    (frames : List String) (hwf : WF s)
    (hM : get_caller_module_name frames = some M) (hne : M ≠ "")
    (hfresh : attr_lookup s.modattrs M ("_sentinel_" ++ n.replace "." "_") =
      none) :
    attr_lookup (sentinel n none frames s).2.modattrs M
        ("_sentinel_" ++ n.replace "." "_") = some s.classes.length ∧
    (sentinel n none frames s).2.classes[s.classes.length]? =
      some ⟨"_sentinel_" ++ n.replace "." "_", M, none⟩ ∧
    (sentinel n none frames (sentinel n none frames s).2).2.classes.length =
      (sentinel n none frames s).2.classes.length ∧
    (∃ id1, (sentinel n none frames s).1 = .ok id1 ∧
      (sentinel n none frames s).2.store[id1]? =
        some ⟨s.classes.length, n, M⟩) ∧
    (∃ id2, (sentinel n none frames (sentinel n none frames s).2).1 =
        .ok id2 ∧
      (sentinel n none frames (sentinel n none frames s).2).2.store[id2]? =
        some ⟨s.classes.length, n, M⟩) := by
  have hb : reg_bounded s := hwf.1
  set REC : PyState :=
    { s with
      classes := s.classes ++ [⟨"_sentinel_" ++ n.replace "." "_", M, none⟩],
      modattrs := (M, "_sentinel_" ++ n.replace "." "_", s.classes.length)
        :: s.modattrs } with hREC
  have hsub := subclass_miss hfresh
  rw [← hREC] at hsub
  have heq1 := sentinel_none_eq hM hne n s
  rw [hsub] at heq1
  dsimp only at heq1
  have hbR : reg_bounded REC := by
    rw [hREC]
    intro p hp
    exact hb p hp
  have hmod1 : attr_lookup
      (SentinelValue_call s.classes.length n M REC).2.modattrs M
      ("_sentinel_" ++ n.replace "." "_") = some s.classes.length := by
    rw [call_modattrs, hREC]
    simp [attr_lookup]
  have hcls1 : (SentinelValue_call s.classes.length n M
      REC).2.classes[s.classes.length]? =
      some ⟨"_sentinel_" ++ n.replace "." "_", M, none⟩ := by
    rw [call_classes, hREC]
    exact List.getElem?_concat_length _ _
  have hsub2 : create_sentinel_value_subclass n M
      (SentinelValue_call s.classes.length n M REC).2 =
      (s.classes.length, (SentinelValue_call s.classes.length n M REC).2) :=
    subclass_hit hmod1
  have heq2 := sentinel_none_eq hM hne n
    (SentinelValue_call s.classes.length n M REC).2
  rw [hsub2] at heq2
  dsimp only at heq2
  rw [heq1]
  dsimp only
  rw [heq2]
  dsimp only
  refine ⟨hmod1, hcls1, ?_,
    ⟨(SentinelValue_call s.classes.length n M REC).1, rfl, ?_⟩,
    ⟨(SentinelValue_call s.classes.length n M
        (SentinelValue_call s.classes.length n M REC).2).1, rfl, ?_⟩⟩
  · rw [call_classes]
  · exact call_get s.classes.length n M hbR
  · exact call_get s.classes.length n M
      (reg_bounded_call s.classes.length n M hbR)

theorem C10_sentinel_subclass_side_effect_witness :
    attr_lookup (sentinel "N" none ["m"] initState).2.modattrs "m"
        ("_sentinel_" ++ "N".replace "." "_") = some 1 ∧
    (sentinel "N" none ["m"]
        (sentinel "N" none ["m"] initState).2).2.classes.length =
      (sentinel "N" none ["m"] initState).2.classes.length := by
  have h := C10_sentinel_subclass_side_effect initState "N" "m" ["m"]
    (by decide) (by decide) (by decide) (by decide)
  exact ⟨h.1, h.2.2.1⟩
